import Mathlib

/-!
Shallow embedding of the reMarkable v6 `.rm` backup tool
(`src/parser.py`, `src/constants.py`, `src/renderer.py`, `src/pdf_export.py`).

Byte streams are modelled as `List Nat` with an explicit cursor.  Python
`EOFError` / `ValueError` become the two constructors of `RErr`; fallible
reads return `Except RErr`.  IEEE floats read from the stream are decoded
exactly into `ℚ` (infinities and NaN, which no claim touches, map to 0).
-/

-- =========================================================================
-- Enumerations (parser.py)
-- =========================================================================

inductive Pen
  | PAINTBRUSH | PENCIL | BALLPOINT | MARKER | FINELINER | HIGHLIGHTER
  | ERASER | MECHANICAL_PENCIL | ERASER_AREA | PAINTBRUSH_2
  | MECHANICAL_PENCIL_2 | PENCIL_2 | BALLPOINT_2 | MARKER_2 | FINELINER_2
  | HIGHLIGHTER_2 | CALIGRAPHY | SHADER
  deriving DecidableEq

def penOfId : Nat → Option Pen
  | 0 => some .PAINTBRUSH
  | 1 => some .PENCIL
  | 2 => some .BALLPOINT
  | 3 => some .MARKER
  | 4 => some .FINELINER
  | 5 => some .HIGHLIGHTER
  | 6 => some .ERASER
  | 7 => some .MECHANICAL_PENCIL
  | 8 => some .ERASER_AREA
  | 12 => some .PAINTBRUSH_2
  | 13 => some .MECHANICAL_PENCIL_2
  | 14 => some .PENCIL_2
  | 15 => some .BALLPOINT_2
  | 16 => some .MARKER_2
  | 17 => some .FINELINER_2
  | 18 => some .HIGHLIGHTER_2
  | 21 => some .CALIGRAPHY
  | 23 => some .SHADER
  | _ => none

inductive PenColor
  | BLACK | GRAY | WHITE | YELLOW | GREEN | PINK | BLUE | RED
  | GRAY_OVERLAP | HIGHLIGHT | GREEN_2 | CYAN | MAGENTA | YELLOW_2
  deriving DecidableEq

def colorOfId : Nat → Option PenColor
  | 0 => some .BLACK
  | 1 => some .GRAY
  | 2 => some .WHITE
  | 3 => some .YELLOW
  | 4 => some .GREEN
  | 5 => some .PINK
  | 6 => some .BLUE
  | 7 => some .RED
  | 8 => some .GRAY_OVERLAP
  | 9 => some .HIGHLIGHT
  | 10 => some .GREEN_2
  | 11 => some .CYAN
  | 12 => some .MAGENTA
  | 13 => some .YELLOW_2
  | _ => none

/-- Python `Pen | int`: unknown pen ids pass through as raw integers. -/
inductive PenU
  | known : Pen → PenU
  | unknown : Nat → PenU
  deriving DecidableEq

/-- Python `PenColor | int`. -/
inductive ColorU
  | known : PenColor → ColorU
  | unknown : Nat → ColorU
  deriving DecidableEq

-- =========================================================================
-- Data classes (parser.py)
-- =========================================================================

structure CrdtId where
  part1 : Nat
  part2 : Nat
  deriving DecidableEq

structure Point where
  x : ℚ
  y : ℚ
  speed : Nat
  width : Nat
  direction : Nat
  pressure : Nat
  deriving DecidableEq

structure Stroke where
  pen : PenU
  color : ColorU
  thickness_scale : ℚ
  points : List Point
  deriving DecidableEq

structure Layer where
  name : String
  visible : Bool
  strokes : List Stroke
  deriving DecidableEq

structure Document where
  layers : List Layer
  deriving DecidableEq

-- =========================================================================
-- Binary stream reader (parser.py BinaryReader)
-- =========================================================================

/-- Python exceptions relevant to the parser: `EOFError` and `ValueError`. -/
inductive RErr
  | eofErr
  | valErr
  deriving DecidableEq

/-- A seekable byte source: the whole content plus a cursor. -/
structure ByteStream where
  data : List Nat
  pos : Nat
  deriving DecidableEq

/-- `read_bytes(n)`: read exactly n bytes, `EOFError` if not enough. -/
def readBytes (s : ByteStream) (n : Nat) : Except RErr (List Nat × ByteStream) :=
  if s.pos + n ≤ s.data.length then
    .ok ((s.data.drop s.pos).take n, { s with pos := s.pos + n })
  else
    .error .eofErr

/-- Byte `i` of a chunk (chunks handed out by `readBytes` always are long enough). -/
def byteAt (bs : List Nat) (i : Nat) : Nat := bs.getD i 0

def readU8 (s : ByteStream) : Except RErr (Nat × ByteStream) :=
  match readBytes s 1 with
  | .ok (bs, s') => .ok (byteAt bs 0, s')
  | .error e => .error e

def readU16 (s : ByteStream) : Except RErr (Nat × ByteStream) :=
  match readBytes s 2 with
  | .ok (bs, s') => .ok (byteAt bs 0 + 256 * byteAt bs 1, s')
  | .error e => .error e

def leU32 (bs : List Nat) : Nat :=
  byteAt bs 0 + 256 * byteAt bs 1 + 65536 * byteAt bs 2 + 16777216 * byteAt bs 3

def readU32 (s : ByteStream) : Except RErr (Nat × ByteStream) :=
  match readBytes s 4 with
  | .ok (bs, s') => .ok (leU32 bs, s')
  | .error e => .error e

def leU64 (bs : List Nat) : Nat :=
  leU32 bs + 4294967296 * leU32 (bs.drop 4)

/-- Exact value of an IEEE-754 binary32 bit pattern (inf/NaN map to 0, unused). -/
def f32ToRat (w : Nat) : ℚ :=
  let sign : Nat := w / 2 ^ 31 % 2
  let e : Nat := w / 2 ^ 23 % 2 ^ 8
  let m : Nat := w % 2 ^ 23
  let mag : ℚ :=
    if e = 0 then (m : ℚ) / ((2 ^ 149 : Nat) : ℚ)
    else if e = 255 then 0
    else if 150 ≤ e then (((2 ^ 23 + m) * 2 ^ (e - 150) : Nat) : ℚ)
    else ((2 ^ 23 + m : Nat) : ℚ) / ((2 ^ (150 - e) : Nat) : ℚ)
  if sign = 1 then -mag else mag

/-- Exact value of an IEEE-754 binary64 bit pattern (inf/NaN map to 0, unused). -/
def f64ToRat (w : Nat) : ℚ :=
  let sign : Nat := w / 2 ^ 63 % 2
  let e : Nat := w / 2 ^ 52 % 2 ^ 11
  let m : Nat := w % 2 ^ 52
  let mag : ℚ :=
    if e = 0 then (m : ℚ) / ((2 ^ 1074 : Nat) : ℚ)
    else if e = 2047 then 0
    else if 1075 ≤ e then (((2 ^ 52 + m) * 2 ^ (e - 1075) : Nat) : ℚ)
    else ((2 ^ 52 + m : Nat) : ℚ) / ((2 ^ (1075 - e) : Nat) : ℚ)
  if sign = 1 then -mag else mag

def readF32 (s : ByteStream) : Except RErr (ℚ × ByteStream) :=
  match readBytes s 4 with
  | .ok (bs, s') => .ok (f32ToRat (leU32 bs), s')
  | .error e => .error e

def readF64 (s : ByteStream) : Except RErr (ℚ × ByteStream) :=
  match readBytes s 8 with
  | .ok (bs, s') => .ok (f64ToRat (leU64 bs), s')
  | .error e => .error e

/--
`read_varuint` core, recursing over the remaining bytes.  Each step folds in
the low 7 bits at the current shift (the Python `|=` is addition here because
the accumulated bits and the new contribution occupy disjoint ranges) and
stops when the continuation bit is clear.  Returns the value and the number
of bytes consumed, or `none` if input ends before a terminator.
-/
def varuintCore : List Nat → Nat → Nat → Option (Nat × Nat)
  | [], _, _ => none
  | b :: rest, shift, acc =>
    let acc2 := acc + b % 128 * 2 ^ shift
    if b / 128 % 2 = 0 then
      some (acc2, 1)
    else
      match varuintCore rest (shift + 7) acc2 with
      | some (v, n) => some (v, n + 1)
      | none => none

def readVaruint (s : ByteStream) : Except RErr (Nat × ByteStream) :=
  match varuintCore (s.data.drop s.pos) 0 0 with
  | some (v, n) => .ok (v, { s with pos := s.pos + n })
  | none => .error .eofErr

def readCrdtId (s : ByteStream) : Except RErr (CrdtId × ByteStream) :=
  match readU8 s with
  | .error e => .error e
  | .ok (p1, s1) =>
    match readVaruint s1 with
    | .error e => .error e
    | .ok (p2, s2) => .ok (⟨p1, p2⟩, s2)

-- =========================================================================
-- Tagged block reader (parser.py TaggedBlockReader)
-- =========================================================================

inductive TagType
  | Byte1 | Byte4 | Byte8 | Length4 | ID
  deriving DecidableEq

def TagType.val : TagType → Nat
  | .Byte1 => 1
  | .Byte4 => 4
  | .Byte8 => 8
  | .Length4 => 12
  | .ID => 15

/-- Python `TagType(n)`: `ValueError` (here `none`) on an unknown type nibble. -/
def tagTypeOfNat (n : Nat) : Option TagType :=
  if n = 1 then some .Byte1
  else if n = 4 then some .Byte4
  else if n = 8 then some .Byte8
  else if n = 12 then some .Length4
  else if n = 15 then some .ID
  else none

structure TBReader where
  stream : ByteStream
  blockEnd : Option Nat
  deriving DecidableEq

/-- Python: 43-byte magic `reMarkable .lines file, version=6` + 10 spaces. -/
def HEADER_V6 : List Nat :=
  [114, 101, 77, 97, 114, 107, 97, 98, 108, 101, 32, 46, 108, 105, 110, 101,
   115, 32, 102, 105, 108, 101, 44, 32, 118, 101, 114, 115, 105, 111, 110,
   61, 54, 32, 32, 32, 32, 32, 32, 32, 32, 32, 32]

/-- `read_header`: read `len(HEADER_V6)` bytes and compare; `ValueError` on mismatch. -/
def readHeader (s : ByteStream) : Except RErr ByteStream :=
  match readBytes s HEADER_V6.length with
  | .error e => .error e
  | .ok (bs, s') => if bs = HEADER_V6 then .ok s' else .error .valErr

/-- `bytes_remaining`: `none` encodes the Python `float(inf)` outside a block. -/
def bytesRemaining (r : TBReader) : Option Int :=
  r.blockEnd.map (fun e => (e : Int) - (r.stream.pos : Int))

/-- The `bytes_remaining() <= 0` test of `_check_tag` (false outside a block). -/
def remNonPos (r : TBReader) : Bool :=
  match bytesRemaining r with
  | some d => decide (d ≤ 0)
  | none => false

/-- `_read_tag`: varuint, split into `(index, type)`. -/
def readTag (s : ByteStream) : Except RErr ((Nat × TagType) × ByteStream) :=
  match readVaruint s with
  | .error e => .error e
  | .ok (t, s') =>
    match tagTypeOfNat (t % 16) with
    | some ty => .ok ((t / 16, ty), s')
    | none => .error .valErr

/-- `_expect_tag`: read a tag, fail (rewinding) unless it matches. -/
def expectTag (r : TBReader) (idx : Nat) (ty : TagType) : Except RErr TBReader :=
  match readTag r.stream with
  | .error e => .error e
  | .ok ((i, t), s') =>
    if i = idx ∧ t = ty then .ok { r with stream := s' }
    else .error .valErr

/-- `_check_tag`: lookahead; the `finally` seek restores the saved position. -/
def checkTag (r : TBReader) (idx : Nat) (ty : TagType) : Bool × TBReader :=
  if remNonPos r then (false, r)
  else
    let pos := r.stream.pos
    let b :=
      match readTag r.stream with
      | .ok ((i, t), _) => decide (i = idx) && decide (t = ty)
      | .error _ => false
    (b, { r with stream := { r.stream with pos := pos } })

def readBool (r : TBReader) (idx : Nat) : Except RErr (Bool × TBReader) :=
  match expectTag r idx .Byte1 with
  | .error e => .error e
  | .ok r' =>
    match readU8 r'.stream with
    | .error e => .error e
    | .ok (b, s') => .ok (decide (b ≠ 0), { r' with stream := s' })

def readByte (r : TBReader) (idx : Nat) : Except RErr (Nat × TBReader) :=
  match expectTag r idx .Byte1 with
  | .error e => .error e
  | .ok r' =>
    match readU8 r'.stream with
    | .error e => .error e
    | .ok (n, s') => .ok (n, { r' with stream := s' })

def readInt (r : TBReader) (idx : Nat) : Except RErr (Nat × TBReader) :=
  match expectTag r idx .Byte4 with
  | .error e => .error e
  | .ok r' =>
    match readU32 r'.stream with
    | .error e => .error e
    | .ok (n, s') => .ok (n, { r' with stream := s' })

def readFloat (r : TBReader) (idx : Nat) : Except RErr (ℚ × TBReader) :=
  match expectTag r idx .Byte4 with
  | .error e => .error e
  | .ok r' =>
    match readF32 r'.stream with
    | .error e => .error e
    | .ok (q, s') => .ok (q, { r' with stream := s' })

def readDouble (r : TBReader) (idx : Nat) : Except RErr (ℚ × TBReader) :=
  match expectTag r idx .Byte8 with
  | .error e => .error e
  | .ok r' =>
    match readF64 r'.stream with
    | .error e => .error e
    | .ok (q, s') => .ok (q, { r' with stream := s' })

def readId (r : TBReader) (idx : Nat) : Except RErr (CrdtId × TBReader) :=
  match expectTag r idx .ID with
  | .error e => .error e
  | .ok r' =>
    match readCrdtId r'.stream with
    | .error e => .error e
    | .ok (c, s') => .ok (c, { r' with stream := s' })

/--
`read_block_header`: returns `(block_type, length, min_version, current_version)`
or `none` at EOF.  Only an `EOFError` in the 4-byte length read is caught;
an EOF in the remaining four header bytes propagates.
-/
def readBlockHeader (r : TBReader) :
    Except RErr (Option (Nat × Nat × Nat × Nat) × TBReader) :=
  match readU32 r.stream with
  | .error .eofErr => .ok (none, r)
  | .error .valErr => .error .valErr
  | .ok (length, s1) =>
    match readU8 s1 with
    | .error e => .error e
    | .ok (_unknown, s2) =>
      match readU8 s2 with
      | .error e => .error e
      | .ok (minVersion, s3) =>
        match readU8 s3 with
        | .error e => .error e
        | .ok (curVersion, s4) =>
          match readU8 s4 with
          | .error e => .error e
          | .ok (blockType, s5) =>
            .ok (some (blockType, length, minVersion, curVersion),
                 { r with stream := s5 })

def readSubblock (r : TBReader) (idx : Nat) : Except RErr (Nat × TBReader) :=
  match expectTag r idx .Length4 with
  | .error e => .error e
  | .ok r' =>
    match readU32 r'.stream with
    | .error e => .error e
    | .ok (n, s') => .ok (n, { r' with stream := s' })

def hasSubblock (r : TBReader) (idx : Nat) : Bool × TBReader :=
  checkTag r idx .Length4

-- =========================================================================
-- Document parser (parser.py read_point / read_line_data / parse_file)
-- =========================================================================

/-- `read_point`: 14 bytes — f32 x, f32 y, u16 speed, u16 width, u8 direction, u8 pressure. -/
def readPoint (s : ByteStream) : Except RErr (Point × ByteStream) :=
  match readF32 s with
  | .error e => .error e
  | .ok (x, s1) =>
    match readF32 s1 with
    | .error e => .error e
    | .ok (y, s2) =>
      match readU16 s2 with
      | .error e => .error e
      | .ok (speed, s3) =>
        match readU16 s3 with
        | .error e => .error e
        | .ok (width, s4) =>
          match readU8 s4 with
          | .error e => .error e
          | .ok (direction, s5) =>
            match readU8 s5 with
            | .error e => .error e
            | .ok (pressure, s6) =>
              .ok (⟨x, y, speed, width, direction, pressure⟩, s6)

def readPoints : Nat → ByteStream → Except RErr (List Point × ByteStream)
  | 0, s => .ok ([], s)
  | n + 1, s =>
    match readPoint s with
    | .error e => .error e
    | .ok (p, s1) =>
      match readPoints n s1 with
      | .error e => .error e
      | .ok (ps, s2) => .ok (p :: ps, s2)

/-- `read_line_data`: stroke payload of a LineItem value subblock. -/
def readLineData (r : TBReader) : Except RErr (Stroke × TBReader) :=
  match readInt r 1 with
  | .error e => .error e
  | .ok (tool_id, r) =>
    match readInt r 2 with
    | .error e => .error e
    | .ok (color_id, r) =>
      match readDouble r 3 with
      | .error e => .error e
      | .ok (thickness_scale, r) =>
        match readFloat r 4 with
        | .error e => .error e
        | .ok (_starting_length, r) =>
          match readSubblock r 5 with
          | .error e => .error e
          | .ok (points_length, r) =>
            let num_points := points_length / 14
            match readPoints num_points r.stream with
            | .error e => .error e
            | .ok (points, s) =>
              let r := { r with stream := s }
              match readId r 6 with
              | .error e => .error e
              | .ok (_timestamp, r) =>
                let pen := match penOfId tool_id with
                  | some p => PenU.known p
                  | none => PenU.unknown tool_id
                let color := match colorOfId color_id with
                  | some c => ColorU.known c
                  | none => ColorU.unknown color_id
                .ok (⟨pen, color, thickness_scale, points⟩, r)

/--
The `try` body parse_file runs for a LineItem block.
`ok none` is the tombstone `continue` path (`deleted_length > 0`);
`ok (some os)` means the body fell through, having found `os` as a stroke
candidate; `error` is any exception the `except` clause will catch.
-/
def lineItemBody (r : TBReader) : Except RErr (Option (Option Stroke) × TBReader) :=
  match readId r 1 with
  | .error e => .error e
  | .ok (_parent_id, r) =>
    match readId r 2 with
    | .error e => .error e
    | .ok (_item_id, r) =>
      match readId r 3 with
      | .error e => .error e
      | .ok (_left_id, r) =>
        match readId r 4 with
        | .error e => .error e
        | .ok (_right_id, r) =>
          match readInt r 5 with
          | .error e => .error e
          | .ok (deleted_length, r) =>
            if deleted_length > 0 then
              .ok (none, r)
            else
              match hasSubblock r 6 with
              | (false, r) => .ok (some none, r)
              | (true, r) =>
                match readSubblock r 6 with
                | .error e => .error e
                | .ok (_value_length, r) =>
                  match readU8 r.stream with
                  | .error e => .error e
                  | .ok (item_type, s) =>
                    let r := { r with stream := s }
                    if item_type = 3 then
                      match readLineData r with
                      | .error e => .error e
                      | .ok (stroke, r) => .ok (some (some stroke), r)
                    else
                      .ok (some none, r)

/--
One iteration of the parse_file loop after the block header has been read:
`r` sits at `block_start`.  On the tombstone `continue` path the final
`seek(block_end)` is skipped (the cursor stays wherever the body left it);
on the fall-through and exception paths the cursor is forced to `block_end`.
-/
def processBlock (blockType length : Nat) (r : TBReader) (strokes : List Stroke) :
    List Stroke × TBReader :=
  let blockEnd := r.stream.pos + length
  if blockType = 5 then
    match lineItemBody r with
    | .ok (none, r') => (strokes, r')
    | .ok (some os, r') =>
      let strokes' := match os with
        | some st => if st.points ≠ [] then strokes ++ [st] else strokes
        | none => strokes
      (strokes', { r' with stream := { r'.stream with pos := blockEnd } })
    | .error _ => (strokes, { r with stream := { r.stream with pos := blockEnd } })
  else
    (strokes, { r with stream := { r.stream with pos := blockEnd } })

/--
The parse_file block loop, instrumented with the cursor position at each
block-header read.  Fuel is the byte length of the file plus one; every
iteration that recurses has consumed at least the 8 header bytes, so the
fuel bound is never the reason the loop stops.
-/
def parseLoop : Nat → TBReader → List Stroke → List Nat →
    Except RErr (List Stroke) × List Nat
  | 0, _, strokes, trace => (.ok strokes, trace)
  | fuel + 1, r, strokes, trace =>
    let trace := trace ++ [r.stream.pos]
    match readBlockHeader r with
    | .error e => (.error e, trace)
    | .ok (none, _) => (.ok strokes, trace)
    | .ok (some (blockType, length, _minv, _curv), r1) =>
      let (strokes', r2) := processBlock blockType length r1 strokes
      parseLoop fuel r2 strokes' trace

/-- `parse_file` on a byte string, also yielding the header-read cursor trace. -/
def parseRun (data : List Nat) : Except RErr (List Stroke) × List Nat :=
  match readHeader ⟨data, 0⟩ with
  | .error e => (.error e, [])
  | .ok s => parseLoop (data.length + 1) ⟨s, none⟩ [] []

def parseFile (data : List Nat) : Except RErr Document :=
  match (parseRun data).1 with
  | .ok strokes => .ok ⟨[⟨"Layer 1", true, strokes⟩]⟩
  | .error e => .error e

/-- Cursor position at the start of each top-level block-header read. -/
def parseTrace (data : List Nat) : List Nat := (parseRun data).2

-- =========================================================================
-- Constants (constants.py)
-- =========================================================================

def RM_DPI : ℚ := 227
def PDF_DPI : ℚ := 72
def RM_TO_PDF_SCALE : ℚ := RM_DPI / PDF_DPI

def COLOR_MAP_RGB : PenColor → Nat × Nat × Nat
  | .BLACK => (0, 0, 0)
  | .GRAY => (125, 125, 125)
  | .WHITE => (255, 255, 255)
  | .YELLOW => (255, 235, 59)
  | .GREEN => (76, 175, 80)
  | .PINK => (233, 30, 99)
  | .BLUE => (48, 74, 224)
  | .RED => (244, 67, 54)
  | .GRAY_OVERLAP => (158, 158, 158)
  | .HIGHLIGHT => (255, 235, 59)
  | .GREEN_2 => (139, 195, 74)
  | .CYAN => (0, 188, 212)
  | .MAGENTA => (156, 39, 176)
  | .YELLOW_2 => (255, 193, 7)

def PEN_BASE_WIDTH : Pen → ℚ
  | .PAINTBRUSH => 3
  | .PENCIL => 3 / 2
  | .BALLPOINT => 6 / 5
  | .MARKER => 4
  | .FINELINER => 4 / 5
  | .HIGHLIGHTER => 12
  | .ERASER => 5
  | .MECHANICAL_PENCIL => 3 / 5
  | .ERASER_AREA => 5
  | .PAINTBRUSH_2 => 3
  | .MECHANICAL_PENCIL_2 => 3 / 5
  | .PENCIL_2 => 3 / 2
  | .BALLPOINT_2 => 6 / 5
  | .MARKER_2 => 4
  | .FINELINER_2 => 4 / 5
  | .HIGHLIGHTER_2 => 12
  | .CALIGRAPHY => 5 / 2
  | .SHADER => 8

def TRANSPARENT_PENS : List Pen := [.HIGHLIGHTER, .HIGHLIGHTER_2, .SHADER]

def ERASER_PENS : List Pen := [.ERASER, .ERASER_AREA]

-- =========================================================================
-- SVG renderer (renderer.py)
-- =========================================================================

def REMARKABLE_WIDTH : ℚ := 1404
def REMARKABLE_HEIGHT : ℚ := 1872
def DEFAULT_X_OFFSET : ℚ := 938
def OUTPUT_WIDTH : ℚ := REMARKABLE_WIDTH / RM_TO_PDF_SCALE
def OUTPUT_HEIGHT : ℚ := REMARKABLE_HEIGHT / RM_TO_PDF_SCALE

/-- Abstract SVG path commands (coordinate formatting is presentation only). -/
inductive PathCmd
  | moveTo (x y : ℚ)
  | lineTo (x y : ℚ)
  | relLineTo (dx dy : ℚ)
  | quadTo (cx cy x y : ℚ)
  deriving DecidableEq

def txPoint (x_offset : ℚ) (p : Point) : ℚ × ℚ :=
  ((p.x + x_offset) / RM_TO_PDF_SCALE, p.y / RM_TO_PDF_SCALE)

/-- The bezier loop of `points_to_path` for `len(points) >= 3`, starting at i = 1. -/
def pathLoop (x_offset : ℚ) (n : Nat) : List Point → Nat → List PathCmd
  | p0 :: p1 :: rest, i =>
    let q0 := txPoint x_offset p0
    let q1 := txPoint x_offset p1
    let mid := ((q0.1 + q1.1) / 2, (q0.2 + q1.2) / 2)
    let cmd :=
      if i = 1 then PathCmd.lineTo mid.1 mid.2
      else if i = n - 1 then PathCmd.quadTo q0.1 q0.2 q1.1 q1.2
      else PathCmd.quadTo q0.1 q0.2 mid.1 mid.2
    cmd :: pathLoop x_offset n (p1 :: rest) (i + 1)
  | _, _ => []

/-- `points_to_path` as abstract commands. -/
def points_to_path (points : List Point) (x_offset : ℚ) : List PathCmd :=
  match points with
  | [] => []
  | [p] =>
    let q := txPoint x_offset p
    [PathCmd.moveTo q.1 q.2, PathCmd.relLineTo (1 / 10) (1 / 10)]
  | [p0, p1] =>
    let q0 := txPoint x_offset p0
    let q1 := txPoint x_offset p1
    [PathCmd.moveTo q0.1 q0.2, PathCmd.lineTo q1.1 q1.2]
  | p0 :: rest =>
    let q0 := txPoint x_offset p0
    PathCmd.moveTo q0.1 q0.2 :: pathLoop x_offset points.length (p0 :: rest) 1

def get_stroke_color (stroke : Stroke) : Nat × Nat × Nat :=
  match stroke.color with
  | .known c => COLOR_MAP_RGB c
  | .unknown _ => (0, 0, 0)

def get_stroke_width (stroke : Stroke) : ℚ :=
  if stroke.points ≠ [] then
    let avg_width : ℚ :=
      (stroke.points.map (fun p => (p.width : ℚ))).sum / (stroke.points.length : ℚ)
    max (1 / 2) (avg_width / RM_TO_PDF_SCALE / 4)
  else
    let base_width : ℚ :=
      match stroke.pen with
      | .known p => PEN_BASE_WIDTH p
      | .unknown _ => 1
    base_width * stroke.thickness_scale / RM_TO_PDF_SCALE

def get_stroke_opacity (stroke : Stroke) : ℚ :=
  match stroke.pen with
  | .known p => if p ∈ TRANSPARENT_PENS then 2 / 5 else 1
  | .unknown _ => 1

def is_eraser (stroke : Stroke) : Bool :=
  match stroke.pen with
  | .known p => decide (p ∈ ERASER_PENS)
  | .unknown _ => false

/-- One emitted `<path>` element of the SVG output. -/
structure SvgPath where
  layerIdx : Nat
  pen : PenU
  cmds : List PathCmd
  color : Nat × Nat × Nat
  width : ℚ
  opacityAttr : Option ℚ
  deriving DecidableEq

/-- The per-stroke body of the render loop: `none` when no path is emitted. -/
def renderStroke (x_offset : ℚ) (layerIdx : Nat) (stroke : Stroke) : Option SvgPath :=
  if is_eraser stroke then none
  else if stroke.points = [] then none
  else
    let opacity := get_stroke_opacity stroke
    some
      { layerIdx := layerIdx
        pen := stroke.pen
        cmds := points_to_path stroke.points x_offset
        color := get_stroke_color stroke
        width := get_stroke_width stroke
        opacityAttr := if opacity < 1 then some opacity else none }

def renderLayer (x_offset : ℚ) (layerIdx : Nat) (layer : Layer) : List SvgPath :=
  layer.strokes.filterMap (renderStroke x_offset layerIdx)

/-- `render_svg`: the sequence of path elements emitted for a document. -/
def render_svg (doc : Document) (x_offset : ℚ) : List SvgPath :=
  (doc.layers.enum.map (fun pr => renderLayer x_offset pr.1 pr.2)).flatten

-- =========================================================================
-- PDF overlay export (pdf_export.py)
-- =========================================================================

namespace PdfExport

def get_color (stroke : Stroke) : ℚ × ℚ × ℚ :=
  let rgb := match stroke.color with
    | .known c => COLOR_MAP_RGB c
    | .unknown _ => (0, 0, 0)
  ((rgb.1 : ℚ) / 255, (rgb.2.1 : ℚ) / 255, (rgb.2.2 : ℚ) / 255)

def is_eraser (stroke : Stroke) : Bool :=
  match stroke.pen with
  | .known p => decide (p ∈ ERASER_PENS)
  | .unknown _ => false

def is_highlighter (stroke : Stroke) : Bool :=
  match stroke.pen with
  | .known p => decide (p ∈ TRANSPARENT_PENS)
  | .unknown _ => false

/-- Drawing commands issued to the PyMuPDF `Shape`. -/
inductive PdfOp
  | drawLine (x1 y1 x2 y2 : ℚ)
  | finish (color : ℚ × ℚ × ℚ) (width : ℚ) (opacity : ℚ)
  deriving DecidableEq

def segments : List (ℚ × ℚ) → List PdfOp
  | p :: q :: rest => PdfOp.drawLine p.1 p.2 q.1 q.2 :: segments (q :: rest)
  | _ => []

/-- `draw_stroke_on_page`: the drawing commands a stroke contributes. -/
def draw_stroke_on_page (stroke : Stroke) (page_width : ℚ) : List PdfOp :=
  if is_eraser stroke ∨ stroke.points.length < 2 then []
  else
    let color := get_color stroke
    let avg_width : ℚ :=
      (stroke.points.map (fun p => (p.width : ℚ))).sum / (stroke.points.length : ℚ)
    let width := max (1 / 2) (avg_width / RM_TO_PDF_SCALE / 4)
    let x_offset := page_width / 2 * RM_TO_PDF_SCALE
    let pdf_points := stroke.points.map (txPoint x_offset)
    let opacity : ℚ := if is_highlighter stroke then 2 / 5 else 1
    segments pdf_points ++ [PdfOp.finish color width opacity]

end PdfExport

-- =========================================================================
-- Concrete inputs and strokes used by the claims
-- =========================================================================

/--
A file whose single LineItem block is a tombstone (`deleted_length = 1`):
43-byte header, then an 8-byte block header declaring `length = 20`,
a 17-byte scene-item envelope, 3 bytes of padding inside the block, and a
trailing 8-byte all-zero block.
-/
def fileC1 : List Nat :=
  HEADER_V6 ++
  [20, 0, 0, 0, 0, 1, 1, 5,
   31, 0, 0, 47, 0, 0, 63, 0, 0, 79, 0, 0,
   84, 1, 0, 0, 0,
   0, 0, 0,
   0, 0, 0, 0, 0, 0, 0, 0]

/--
A well-formed file with one LineItem block holding a single eraser stroke:
pen id 6 (ERASER), color 0, thickness_scale 1.0, one all-zero point.
-/
def fileEraser : List Nat :=
  HEADER_V6 ++
  [69, 0, 0, 0, 0, 1, 1, 5] ++
  [31, 0, 0, 47, 0, 0, 63, 0, 0, 79, 0, 0] ++
  [84, 0, 0, 0, 0] ++
  [108, 47, 0, 0, 0] ++
  [3] ++
  [20, 6, 0, 0, 0] ++
  [36, 0, 0, 0, 0] ++
  [56, 0, 0, 0, 0, 0, 0, 240, 63] ++
  [68, 0, 0, 0, 0] ++
  [92, 14, 0, 0, 0] ++
  [0, 0, 0, 0, 0, 0, 0, 0, 0, 0, 0, 0, 0, 0] ++
  [111, 0, 0]

/-- Valid header followed by 5 bytes: truncation inside bytes 5-8 of a block header. -/
def fileC4 : List Nat := HEADER_V6 ++ [0, 0, 0, 0, 0]

/-- `fileEraser` (one fully parsed block) followed by 3 stray bytes: EOF hits
the length field of the next block header. -/
def fileTrunc3 : List Nat := fileEraser ++ [9, 9, 9]

/-- `fileEraser` followed by 5 stray bytes: EOF hits bytes 5-8 of the next
block header. -/
def fileTrunc5 : List Nat := fileEraser ++ [9, 9, 9, 9, 9]

/-- The spec magic string padded with spaces to 44 bytes instead of 43. -/
def headerSpec44 : List Nat := HEADER_V6 ++ [32]

/-- The Document parse_file produces for a file with no usable blocks. -/
def emptyDoc : Document := ⟨[⟨"Layer 1", true, []⟩]⟩

/-- A marker stroke whose single point has all-zero fields (width 0). -/
def strokeZeroW : Stroke :=
  { pen := .known .MARKER, color := .known .BLACK, thickness_scale := 1,
    points := [⟨0, 0, 0, 0, 0, 0⟩] }

/-- A marker stroke whose single point has width 16. -/
def strokeW16 : Stroke :=
  { pen := .known .MARKER, color := .known .BLACK, thickness_scale := 1,
    points := [⟨0, 0, 0, 16, 0, 0⟩] }

/-- A fineliner stroke with no points at all. -/
def strokeNoPts : Stroke :=
  { pen := .known .FINELINER, color := .known .BLACK, thickness_scale := 2,
    points := [] }

/-- A highlighter stroke with two points. -/
def strokeHi : Stroke :=
  { pen := .known .HIGHLIGHTER, color := .known .YELLOW, thickness_scale := 1,
    points := [⟨0, 0, 0, 0, 0, 0⟩, ⟨1, 1, 0, 0, 0, 0⟩] }

def docMarker : Document := ⟨[⟨"L", true, [strokeW16]⟩]⟩

def docHi : Document := ⟨[⟨"L", true, [strokeHi]⟩]⟩

/-- The mean of the points' raw width fields, as the spec formula writes it. -/
def meanWidth (points : List Point) : ℚ :=
  (points.map (fun p => (p.width : ℚ))).sum / (points.length : ℚ)

/-- The single path element the SVG renderer emits for `docMarker`. -/
def pM : SvgPath :=
  { layerIdx := 0
    pen := .known .MARKER
    cmds := [PathCmd.moveTo (67536 / 227) 0, PathCmd.relLineTo (1 / 10) (1 / 10)]
    color := (0, 0, 0)
    width := 288 / 227
    opacityAttr := none }

/-- The single path element the SVG renderer emits for `docHi`. -/
def pH : SvgPath :=
  { layerIdx := 0
    pen := .known .HIGHLIGHTER
    cmds := [PathCmd.moveTo (67536 / 227) 0, PathCmd.lineTo (67608 / 227) (72 / 227)]
    color := (255, 235, 59)
    width := 1 / 2
    opacityAttr := some (2 / 5) }

-- =========================================================================
-- Small stream lemmas
-- =========================================================================

theorem readBytes_ok (s : ByteStream) (n : Nat) (h : s.pos + n ≤ s.data.length) :
    readBytes s n = .ok ((s.data.drop s.pos).take n, { s with pos := s.pos + n }) := by
  simp [readBytes, h]

theorem readBytes_err (s : ByteStream) (n : Nat) (h : s.data.length < s.pos + n) :
    readBytes s n = .error .eofErr := by
  simp [readBytes]
  omega

theorem readU8_err (s : ByteStream) (h : s.data.length < s.pos + 1) :
    readU8 s = .error .eofErr := by
  simp [readU8, readBytes_err s 1 h]

theorem readU32_err (s : ByteStream) (h : s.data.length < s.pos + 4) :
    readU32 s = .error .eofErr := by
  simp [readU32, readBytes_err s 4 h]

theorem readU8_ok (s : ByteStream) (h : s.pos + 1 ≤ s.data.length) :
    readU8 s = .ok (byteAt ((s.data.drop s.pos).take 1) 0, { s with pos := s.pos + 1 }) := by
  simp [readU8, readBytes_ok s 1 h]

theorem readU32_ok (s : ByteStream) (h : s.pos + 4 ≤ s.data.length) :
    readU32 s = .ok (leU32 ((s.data.drop s.pos).take 4), { s with pos := s.pos + 4 }) := by
  simp [readU32, readBytes_ok s 4 h]

theorem headerV6_length : HEADER_V6.length = 43 := by decide

theorem readHeader_prefix (extra : List Nat) :
    readHeader ⟨HEADER_V6 ++ extra, 0⟩ = .ok ⟨HEADER_V6 ++ extra, 43⟩ := by
  have hlen : (43 : Nat) ≤ (HEADER_V6 ++ extra).length := by
    simp [List.length_append, headerV6_length]
  have hrb := readBytes_ok ⟨HEADER_V6 ++ extra, 0⟩ HEADER_V6.length
    (by simp [headerV6_length])
  rw [readHeader, hrb]
  simp [headerV6_length]

/-- An EOF inside the 4-byte length field is caught: `read_block_header`
returns None with the reader untouched. -/
theorem readBlockHeader_eof_in_length (r : TBReader)
    (h : r.stream.data.length < r.stream.pos + 4) :
    readBlockHeader r = .ok (none, r) := by
  rw [readBlockHeader, readU32_err r.stream h]

/-- An EOF in header bytes 5-8 (length readable, 4 to 7 bytes remaining)
escapes `read_block_header`. -/
theorem readBlockHeader_eof_late (r : TBReader)
    (h4 : r.stream.pos + 4 ≤ r.stream.data.length)
    (h8 : r.stream.data.length < r.stream.pos + 8) :
    readBlockHeader r = .error .eofErr := by
  obtain ⟨⟨data, pos⟩, be⟩ := r
  simp only at h4 h8
  rw [readBlockHeader]
  simp only [readU32_ok ⟨data, pos⟩ h4]
  rcases (by omega :
    data.length = pos + 4 ∨ data.length = pos + 5 ∨
    data.length = pos + 6 ∨ data.length = pos + 7) with h | h | h | h
  · simp only [readU8_err ⟨data, pos + 4⟩ (by simp; omega)]
  · simp only [readU8_ok ⟨data, pos + 4⟩ (by simp; omega)]
    simp only [readU8_err ⟨data, pos + 4 + 1⟩ (by simp; omega)]
  · simp only [readU8_ok ⟨data, pos + 4⟩ (by simp; omega)]
    simp only [readU8_ok ⟨data, pos + 4 + 1⟩ (by simp; omega)]
    simp only [readU8_err ⟨data, pos + 4 + 1 + 1⟩ (by simp; omega)]
  · simp only [readU8_ok ⟨data, pos + 4⟩ (by simp; omega)]
    simp only [readU8_ok ⟨data, pos + 4 + 1⟩ (by simp; omega)]
    simp only [readU8_ok ⟨data, pos + 4 + 1 + 1⟩ (by simp; omega)]
    simp only [readU8_err ⟨data, pos + 4 + 1 + 1 + 1⟩ (by simp; omega)]

-- =========================================================================
-- Claims
-- =========================================================================

/--
Claim C1 (code bug): contrary to the claim that the parser seeks to
`header_end + length` after every block, a LineItem block with non-zero
`deleted_length` hits the `continue` statement, which bypasses the
`seek(block_end)` at loop bottom.  On `fileC1` the first block starts at 43
with length 20, so the next header read should begin at 43 + 8 + 20 = 71;
the code instead reads it at 68, the position right after `deleted_length`.
-/
theorem parse_trace_tombstone_misses_seek :
    parseTrace fileC1 = [43, 68, 76] ∧ 43 + 8 + 20 = 71 ∧ (68 : Nat) ≠ 71 :=
  ⟨by decide, by decide, by decide⟩

/--
Claim C2 counterexample: the header constant is 43 bytes, not 44.  Feeding
the 44-byte padded magic (`headerSpec44`), `read_header` succeeds having
consumed only 43 bytes, refuting "consumes exactly 44 bytes".
-/
theorem read_header_consumes_43_not_44 :
    headerSpec44.length = 44 ∧
    readHeader ⟨headerSpec44, 0⟩ = .ok ⟨headerSpec44, 43⟩ ∧ (43 : Nat) ≠ 44 :=
  ⟨by decide, rfl, by decide⟩

/--
Claim C2 as amended: `read_header` consumes exactly 43 bytes and accepts
exactly the magic string padded with spaces to 43 bytes (`HEADER_V6`),
failing on any other 43-byte prefix.
-/
theorem read_header_accepts_exactly_header43 (data : List Nat) :
    (readHeader ⟨data, 0⟩ = .ok ⟨data, 43⟩ ↔ data.take 43 = HEADER_V6) ∧
    (∀ s', readHeader ⟨data, 0⟩ = .ok s' → s' = ⟨data, 43⟩) := by
  by_cases hlen : 43 ≤ data.length
  · have hrb := readBytes_ok ⟨data, 0⟩ HEADER_V6.length (by simp [headerV6_length]; omega)
    rw [readHeader, hrb]
    simp only [headerV6_length, List.drop_zero]
    constructor
    · constructor
      · intro h
        by_cases htake : data.take 43 = HEADER_V6
        · exact htake
        · simp [htake] at h
      · intro h
        simp [h]
    · intro s' h
      by_cases htake : data.take 43 = HEADER_V6
      · simp [htake] at h
        exact h.symm
      · simp [htake] at h
  · have hrb := readBytes_err ⟨data, 0⟩ HEADER_V6.length (by simp [headerV6_length]; omega)
    rw [readHeader, hrb]
    constructor
    · constructor
      · intro h
        exact absurd h (by simp)
      · intro h
        have : (data.take 43).length = 43 := by rw [h, headerV6_length]
        simp [List.length_take] at this
        omega
    · intro s' h
      exact absurd h (by simp)

/-- Witness for the amended C2 at a concrete input with trailing content. -/
theorem read_header_accepts_exactly_header43_witness :
    readHeader ⟨HEADER_V6 ++ [0], 0⟩ = .ok ⟨HEADER_V6 ++ [0], 43⟩ :=
  (read_header_accepts_exactly_header43 (HEADER_V6 ++ [0])).1.mpr (by decide)

/--
Claim C3 counterexample: a non-empty stroke with all per-point widths zero
does NOT fall back to the pen-based width.  For `strokeZeroW` (MARKER,
thickness 1, one point of width 0) the code yields max(0.5, 0) = 1/2 while
the claimed fallback `PEN_BASE_WIDTH[MARKER] * 1 / S` is 288/227 ≠ 1/2.
-/
theorem stroke_width_zero_widths_no_fallback :
    get_stroke_width strokeZeroW = 1 / 2 ∧
    PEN_BASE_WIDTH .MARKER * strokeZeroW.thickness_scale / RM_TO_PDF_SCALE = 288 / 227 ∧
    (1 / 2 : ℚ) ≠ 288 / 227 := by
  refine ⟨?_, ?_, by norm_num⟩
  · rw [get_stroke_width]
    norm_num [strokeZeroW]
  · norm_num [strokeZeroW, PEN_BASE_WIDTH, RM_TO_PDF_SCALE, RM_DPI, PDF_DPI]

/--
Claim C3 as amended: for every stroke with at least one point the rendered
width is `max(0.5, mean(width) / S / 4)` with S = 227/72 — even when all the
per-point widths are zero — and the fallback
`PEN_BASE_WIDTH[pen] * thickness_scale / S` applies only to strokes with no
points at all.
-/
theorem stroke_width_formula (stroke : Stroke) :
    (stroke.points ≠ [] →
      get_stroke_width stroke = max (1 / 2) (meanWidth stroke.points / (227 / 72) / 4)) ∧
    (stroke.points = [] → ∀ p, stroke.pen = .known p →
      get_stroke_width stroke = PEN_BASE_WIDTH p * stroke.thickness_scale / (227 / 72)) := by
  have hS : RM_TO_PDF_SCALE = 227 / 72 := by
    norm_num [RM_TO_PDF_SCALE, RM_DPI, PDF_DPI]
  constructor
  · intro h
    simp [get_stroke_width, h, meanWidth, hS]
  · intro h p hp
    simp [get_stroke_width, h, hp, hS]

/-- Witness for the amended C3 on both branches. -/
theorem stroke_width_formula_witness :
    get_stroke_width strokeW16 = max (1 / 2) (meanWidth strokeW16.points / (227 / 72) / 4) ∧
    get_stroke_width strokeNoPts = PEN_BASE_WIDTH .FINELINER * strokeNoPts.thickness_scale / (227 / 72) :=
  ⟨(stroke_width_formula strokeW16).1 (by decide),
   (stroke_width_formula strokeNoPts).2 (by decide) .FINELINER (by decide)⟩

/--
Claim C5: when the body of a LineItem block fails with any error, the block
step leaves the collected strokes unchanged, forces the cursor to
`block_end = block_start + length`, and returns normally (the error is
swallowed, never propagated: `processBlock` is total).
-/
theorem line_block_error_recovery (r : TBReader) (length : Nat)
    (strokes : List Stroke) (e : RErr) (h : lineItemBody r = .error e) :
    processBlock 5 length r strokes =
      (strokes, { r with stream := { r.stream with pos := r.stream.pos + length } }) := by
  simp [processBlock, h]

/-- Witness for C5: on an empty stream the LineItem body fails with EOF. -/
theorem line_block_error_recovery_witness :
    processBlock 5 7 ⟨⟨[], 0⟩, none⟩ [] = ([], ⟨⟨[], 7⟩, none⟩) :=
  line_block_error_recovery ⟨⟨[], 0⟩, none⟩ 7 [] .eofErr rfl

/--
Claim C9 counterexample: `read_varuint` imposes no 10-byte cap.  On eleven
continuation bytes followed by a terminator it succeeds after consuming 12
bytes (yielding 2^77) instead of failing.
-/
theorem varuint_no_ten_byte_cap :
    readVaruint ⟨List.replicate 11 128 ++ [1], 0⟩ =
      .ok (2 ^ 77, ⟨List.replicate 11 128 ++ [1], 12⟩) ∧ 10 < 12 :=
  ⟨rfl, by decide⟩

theorem varuintCore_replicate (k b : Nat) (rest : List Nat) (hb : b < 128) :
    ∀ shift acc, varuintCore (List.replicate k 128 ++ b :: rest) shift acc =
      some (acc + b * 2 ^ (shift + 7 * k), k + 1) := by
  induction k with
  | zero =>
    intro shift acc
    simp [varuintCore, Nat.mod_eq_of_lt hb, Nat.div_eq_of_lt hb]
  | succ k ih =>
    intro shift acc
    rw [List.replicate_succ, List.cons_append, varuintCore]
    simp only [ih (shift + 7)]
    have h7 : shift + 7 + 7 * k = shift + 7 * (k + 1) := by ring
    norm_num [h7]

theorem varuintCore_unterminated (k : Nat) :
    ∀ shift acc, varuintCore (List.replicate k 128) shift acc = none := by
  induction k with
  | zero => intro shift acc; simp [varuintCore]
  | succ k ih =>
    intro shift acc
    rw [List.replicate_succ, varuintCore]
    simp [ih]

/--
Claim C9 as amended: `read_varuint` has no length cap.  For any number k of
leading continuation bytes it succeeds on reaching a terminator byte b,
consuming k+1 bytes and yielding b·2^(7k); it fails (with EOF) only when the
input ends before any terminator.
-/
theorem varuint_unbounded (k b : Nat) (rest : List Nat) (hb : b < 128) :
    readVaruint ⟨List.replicate k 128 ++ b :: rest, 0⟩ =
      .ok (b * 2 ^ (7 * k), ⟨List.replicate k 128 ++ b :: rest, k + 1⟩) ∧
    readVaruint ⟨List.replicate k 128, 0⟩ = .error .eofErr := by
  constructor
  · rw [readVaruint]
    simp [varuintCore_replicate k b rest hb 0 0]
  · rw [readVaruint]
    simp [varuintCore_unterminated k 0 0]

/-- Witness for the amended C9 at k = 11 continuation bytes. -/
theorem varuint_unbounded_witness :
    readVaruint ⟨List.replicate 11 128 ++ [5], 0⟩ =
      .ok (5 * 2 ^ 77, ⟨List.replicate 11 128 ++ [5], 12⟩) :=
  (varuint_unbounded 11 5 [] (by decide)).1

/--
Claim C10: the PDF overlay emits no drawing command at all for a stroke with
fewer than two points, while the SVG renderer draws a single-point stroke as
a degenerate dot path (move + 0.1-unit relative line).
-/
theorem pdf_skips_short_strokes :
    (∀ (stroke : Stroke) (page_width : ℚ), stroke.points.length < 2 →
      PdfExport.draw_stroke_on_page stroke page_width = []) ∧
    (render_svg ⟨[⟨"L", true, [strokeW16]⟩]⟩ DEFAULT_X_OFFSET).map SvgPath.cmds =
      [[PathCmd.moveTo (67536 / 227) 0, PathCmd.relLineTo (1 / 10) (1 / 10)]] := by
  constructor
  · intro stroke page_width h
    simp [PdfExport.draw_stroke_on_page, h]
  · simp [render_svg, renderLayer, renderStroke, points_to_path, txPoint, strokeW16,
          is_eraser, ERASER_PENS]
    norm_num [DEFAULT_X_OFFSET, RM_TO_PDF_SCALE, RM_DPI, PDF_DPI]

/-- Witness for C10 at a concrete one-point stroke. -/
theorem pdf_skips_short_strokes_witness :
    PdfExport.draw_stroke_on_page strokeW16 595 = [] :=
  pdf_skips_short_strokes.1 strokeW16 595 (by decide)

/-- Every emitted SVG path comes from a non-eraser stroke with points; its pen
and opacity attribute are determined by that stroke. -/
theorem mem_render_svg (doc : Document) (x_offset : ℚ) (p : SvgPath)
    (hp : p ∈ render_svg doc x_offset) :
    ∃ st : Stroke, is_eraser st = false ∧ st.points ≠ [] ∧ p.pen = st.pen ∧
      p.opacityAttr =
        (if get_stroke_opacity st < 1 then some (get_stroke_opacity st) else none) := by
  simp only [render_svg, List.mem_flatten, List.mem_map] at hp
  obtain ⟨paths, ⟨pr, hpr, rfl⟩, hpin⟩ := hp
  simp only [renderLayer, List.mem_filterMap] at hpin
  obtain ⟨st, hst, hrs⟩ := hpin
  cases he : is_eraser st with
  | true => simp [renderStroke, he] at hrs
  | false =>
    by_cases hpts : st.points = []
    · simp [renderStroke, he, hpts] at hrs
    · simp [renderStroke, he, hpts] at hrs
      refine ⟨st, he, hpts, ?_, ?_⟩ <;> rw [← hrs]

theorem render_docMarker : render_svg docMarker DEFAULT_X_OFFSET = [pM] := by
  simp [render_svg, renderLayer, renderStroke, docMarker, strokeW16, is_eraser, ERASER_PENS,
        points_to_path, txPoint, get_stroke_color, get_stroke_width, get_stroke_opacity,
        COLOR_MAP_RGB, TRANSPARENT_PENS, pM]
  norm_num [DEFAULT_X_OFFSET, RM_TO_PDF_SCALE, RM_DPI, PDF_DPI]

theorem render_docHi : render_svg docHi DEFAULT_X_OFFSET = [pH] := by
  simp [render_svg, renderLayer, renderStroke, docHi, strokeHi, is_eraser, ERASER_PENS,
        points_to_path, txPoint, get_stroke_color, get_stroke_width, get_stroke_opacity,
        COLOR_MAP_RGB, TRANSPARENT_PENS, pH]
  norm_num [DEFAULT_X_OFFSET, RM_TO_PDF_SCALE, RM_DPI, PDF_DPI]

set_option maxRecDepth 100000 in
/--
Claim C6: no path emitted by the SVG renderer comes from an eraser pen
(ERASER or ERASER_AREA); yet the parser keeps eraser strokes in the
Document, as `fileEraser` shows — its parse contains one ERASER stroke and
its rendering emits no path at all.
-/
theorem renderer_excludes_erasers :
    (∀ (doc : Document) (x_offset : ℚ) (p : SvgPath), p ∈ render_svg doc x_offset →
      p.pen ≠ PenU.known .ERASER ∧ p.pen ≠ PenU.known .ERASER_AREA) ∧
    (parseFile fileEraser).map (fun d => d.layers.map (fun l => l.strokes.map Stroke.pen)) =
      .ok [[PenU.known .ERASER]] ∧
    (parseFile fileEraser).map (fun d => render_svg d DEFAULT_X_OFFSET) = .ok [] := by
  refine ⟨?_, rfl, rfl⟩
  intro doc x_offset p hp
  obtain ⟨st, he, -, hpen, -⟩ := mem_render_svg doc x_offset p hp
  rw [hpen]
  rcases hq : st.pen with q | n
  · simp only [is_eraser, hq] at he
    simp only [ERASER_PENS, List.mem_cons, List.not_mem_nil, or_false,
      decide_eq_false_iff_not, not_or] at he
    obtain ⟨h1, h2⟩ := he
    exact ⟨by simp [h1], by simp [h2]⟩
  · exact ⟨by simp, by simp⟩

/-- Witness for C6 at the concrete rendered marker path. -/
theorem renderer_excludes_erasers_witness :
    pM.pen ≠ PenU.known .ERASER ∧ pM.pen ≠ PenU.known .ERASER_AREA :=
  renderer_excludes_erasers.1 docMarker DEFAULT_X_OFFSET pM
    (by rw [render_docMarker]; exact List.mem_singleton.mpr rfl)

/--
Claim C7: an emitted path carries opacity 0.4 (an explicit attribute, default
1.0 when absent) exactly when its stroke's pen is HIGHLIGHTER, HIGHLIGHTER_2
or SHADER; every other stroke — known pens outside the transparent set and
unknown numeric pen ids alike — renders with opacity exactly 1.0.
-/
theorem opacity_two_fifths_iff_transparent_pen (doc : Document) (x_offset : ℚ)
    (p : SvgPath) (hp : p ∈ render_svg doc x_offset) :
    (p.opacityAttr.getD 1 = 2 / 5 ↔
      ∃ q, q ∈ TRANSPARENT_PENS ∧ p.pen = PenU.known q) ∧
    ((¬ ∃ q, q ∈ TRANSPARENT_PENS ∧ p.pen = PenU.known q) →
      p.opacityAttr.getD 1 = 1) ∧
    (∀ n, p.pen = PenU.unknown n → p.opacityAttr.getD 1 = 1) := by
  obtain ⟨st, -, -, hpen, hopa⟩ := mem_render_svg doc x_offset p hp
  rw [hpen, hopa]
  rcases hq : st.pen with q | n
  · by_cases ht : q ∈ TRANSPARENT_PENS
    · have hval : get_stroke_opacity st = 2 / 5 := by
        simp [get_stroke_opacity, hq, ht]
      rw [hval]
      refine ⟨?_, ?_, ?_⟩
      · rw [if_pos (by norm_num)]
        exact ⟨fun _ => ⟨q, ht, rfl⟩, fun _ => rfl⟩
      · intro hn
        exact absurd ⟨q, ht, rfl⟩ hn
      · intro n hn
        exact absurd hn (by simp)
    · have hval : get_stroke_opacity st = 1 := by
        simp [get_stroke_opacity, hq, ht]
      rw [hval, if_neg (by norm_num)]
      refine ⟨?_, ?_, ?_⟩
      · simp only [Option.getD_none]
        constructor
        · intro h
          exact absurd h (by norm_num)
        · rintro ⟨q', hq', hq'eq⟩
          rw [PenU.known.injEq] at hq'eq
          exact absurd (hq'eq ▸ hq') ht
      · intro hn
        simp
      · intro n hn
        simp
  · have hval : get_stroke_opacity st = 1 := by
      simp [get_stroke_opacity, hq]
    rw [hval, if_neg (by norm_num)]
    refine ⟨?_, ?_, ?_⟩
    · simp only [Option.getD_none]
      constructor
      · intro h
        exact absurd h (by norm_num)
      · rintro ⟨q', hq', hq'eq⟩
        exact absurd hq'eq (by simp)
    · intro hn
      simp
    · intro n hn
      simp

/-- Witness for C7 at concrete rendered highlighter and marker paths: the
former carries opacity 2/5, the latter (a known non-transparent pen) 1. -/
theorem opacity_two_fifths_iff_transparent_pen_witness :
    pH.opacityAttr.getD 1 = 2 / 5 ∧ pM.opacityAttr.getD 1 = 1 :=
  ⟨(opacity_two_fifths_iff_transparent_pen docHi DEFAULT_X_OFFSET pH
      (by rw [render_docHi]; exact List.mem_singleton.mpr rfl)).1.mpr
    ⟨.HIGHLIGHTER, by decide, rfl⟩,
   (opacity_two_fifths_iff_transparent_pen docMarker DEFAULT_X_OFFSET pM
      (by rw [render_docMarker]; exact List.mem_singleton.mpr rfl)).2.1
    (by rintro ⟨q, hqT, hqe⟩; injection hqe with h; rw [← h] at hqT; revert hqT; decide)⟩

/--
Claim C8: `_check_tag` never moves the cursor (the reader state it returns
is the one it was given), and it returns false whenever the cursor sits at
or past the current block-end bound, and whenever reading the tag fails.
-/
theorem check_tag_pure_lookahead (r : TBReader) (idx : Nat) (ty : TagType) :
    (checkTag r idx ty).2 = r ∧
    (∀ d : Int, bytesRemaining r = some d → d ≤ 0 → (checkTag r idx ty).1 = false) ∧
    (∀ e, readTag r.stream = .error e → (checkTag r idx ty).1 = false) := by
  obtain ⟨⟨data, pos⟩, be⟩ := r
  refine ⟨?_, ?_, ?_⟩
  · rw [checkTag]
    split
    · rfl
    · rfl
  · intro d hbe hd
    rw [checkTag, if_pos]
    simp only [remNonPos, hbe]
    simpa using hd
  · intro e he
    rw [checkTag]
    split
    · rfl
    · simp [he]

/-- Witness for C8: at block end and on an invalid tag the lookahead is false
and the state is untouched. -/
theorem check_tag_pure_lookahead_witness :
    (checkTag ⟨⟨[], 5⟩, some 3⟩ 2 .Byte4).2 = ⟨⟨[], 5⟩, some 3⟩ ∧
    (checkTag ⟨⟨[], 5⟩, some 3⟩ 2 .Byte4).1 = false ∧
    (checkTag ⟨⟨[7], 0⟩, none⟩ 2 .Byte4).1 = false :=
  ⟨(check_tag_pure_lookahead ⟨⟨[], 5⟩, some 3⟩ 2 .Byte4).1,
   (check_tag_pure_lookahead ⟨⟨[], 5⟩, some 3⟩ 2 .Byte4).2.1 (-2) (by decide) (by decide),
   (check_tag_pure_lookahead ⟨⟨[7], 0⟩, none⟩ 2 .Byte4).2.2 .valErr rfl⟩

/--
Claim C4 counterexample: `fileC4` is truncated inside the 8-byte block
header (5 of its 8 bytes are present, so the EOF hits the per-byte reads
after the length field); parse_file raises EOF instead of returning the
Document built so far.
-/
theorem parse_truncated_block_header_raises : parseFile fileC4 = .error .eofErr := rfl

set_option maxRecDepth 100000 in
/--
Claim C4 as amended: at ANY top-level block-header boundary — whatever blocks
were already parsed (arbitrary reader position, accumulated strokes and
trace) — an EOF while reading the 4-byte length field (fewer than 4 bytes
remaining) ends the loop normally, returning exactly the strokes built so
far; an EOF in the remaining four header bytes (4 to 7 bytes remaining)
raises the EOF error.  Concretely, `fileEraser` followed by 3 stray bytes
parses to the one-eraser-stroke Document built before the truncation, while
5 stray bytes make parse_file raise.
-/
theorem parse_eof_at_block_header :
    (∀ (fuel : Nat) (r : TBReader) (strokes : List Stroke) (trace : List Nat),
      r.stream.data.length < r.stream.pos + 4 →
      parseLoop (fuel + 1) r strokes trace = (.ok strokes, trace ++ [r.stream.pos])) ∧
    (∀ (fuel : Nat) (r : TBReader) (strokes : List Stroke) (trace : List Nat),
      r.stream.pos + 4 ≤ r.stream.data.length →
      r.stream.data.length < r.stream.pos + 8 →
      parseLoop (fuel + 1) r strokes trace = (.error .eofErr, trace ++ [r.stream.pos])) ∧
    (parseFile fileTrunc3).map (fun d => d.layers.map (fun l => l.strokes.map Stroke.pen)) =
      .ok [[PenU.known .ERASER]] ∧
    parseFile fileTrunc5 = .error .eofErr := by
  refine ⟨?_, ?_, rfl, rfl⟩
  · intro fuel r strokes trace h
    rw [parseLoop]
    simp only [readBlockHeader_eof_in_length r h]
  · intro fuel r strokes trace h4 h8
    rw [parseLoop]
    simp only [readBlockHeader_eof_late r h4 h8]

/-- Witness for the amended C4: with one stroke already collected, 2 bytes
left at the header boundary end the loop keeping that stroke; 5 bytes left
raise EOF. -/
theorem parse_eof_at_block_header_witness :
    parseLoop 1 ⟨⟨List.replicate 45 9, 43⟩, none⟩ [strokeW16] [] =
      (.ok [strokeW16], [43]) ∧
    parseLoop 1 ⟨⟨List.replicate 48 9, 43⟩, none⟩ [] [] = (.error .eofErr, [43]) :=
  ⟨parse_eof_at_block_header.1 0 ⟨⟨List.replicate 45 9, 43⟩, none⟩ [strokeW16] []
      (by decide),
   parse_eof_at_block_header.2.1 0 ⟨⟨List.replicate 48 9, 43⟩, none⟩ [] []
      (by decide) (by decide)⟩
